import Mathlib

/-!
Shallow embedding of the session lifecycle and pricing engine of the
xtreme client app (a kiosk-mode client for a gaming café).

Conventions of the embedding:
* JS numbers that carry money or durations are modelled as rationals (ℚ);
  timestamps are modelled as integer epoch milliseconds (ℤ).
* Remote-store lookups that can throw are modelled with `Except Unit`;
  a lookup that can return a missing field is an `Option`.
* Remote writes, log appends, notifications and other effects are modelled
  as an explicit list of `Action` values emitted by each operation; a
  `setTimeout` is the `Action.delayed` constructor carrying the actions its
  callback would perform.  Writes are modelled as issued requests (the
  source catches a failing write only to skip the remainder of its own
  block, which no claim depends on).
* JS `x || 0` on a rational is the identity (`0 || 0 = 0`, and any non-zero
  rational is truthy), so it is dropped.
-/

namespace Xtreme

/-! ### Pricing resolver (`fetchDeviceGroupAndCalculateCost`, SessionManager) -/

/-- Result object of `fetchDeviceGroupAndCalculateCost`. -/
structure CostDetails where
  baseCost : ℚ
  finalCost : ℚ
  discountRate : ℚ
  discountAmount : ℚ
  happyHourApplied : Bool
deriving Repr, DecidableEq

/-- The all-zero result returned on lookup failure.  (When the device id
itself is absent the source returns the number `0` instead of this object;
every caller reads the fields through `|| 0`, observing exactly these
zeros, so that path is embedded as the same value.) -/
def zeroCost : CostDetails := ⟨0, 0, 0, 0, false⟩

/-- A `happy_hours` record (discount window).  The store query already
filters on `status = "Active"` and the current weekday, so only the fields
read by the client are modelled. -/
structure HappyHour where
  start_time : String
  end_time : String
  discount_percentage : Option ℚ
  fixed_rate : Option ℚ
deriving Repr, DecidableEq

/-- A `groups` record (rate group). -/
structure Group where
  id : String
  price : Option ℚ
deriving Repr, DecidableEq

/-- A `devices` record as read by the pricing resolver. -/
structure Device where
  id : String
  group : Option String
deriving Repr, DecidableEq

/-- The remote store as seen by the pricing resolver.  `getHappyHours` is
keyed by group id and weekday name and returns the windows already
filtered to `status = "Active" && days = weekday`, in query order. -/
structure PricingStore where
  getDevice : String → Except Unit Device
  getGroup : String → Except Unit Group
  getHappyHours : String → String → Except Unit (List HappyHour)

/-- The fixed-rate branch of the discount application
(`fixed_rate && fixed_rate > 0`), else no discount. -/
def windowFixed (baseCost validDuration : ℚ) (hh : HappyHour) : CostDetails :=
  match hh.fixed_rate with
  | some f =>
    if 0 < f then
      let finalCost := f * validDuration
      let discountAmount := baseCost - finalCost
      let discountRate := if 0 < baseCost then discountAmount / baseCost * 100 else 0
      ⟨baseCost, finalCost, discountRate, discountAmount, true⟩
    else ⟨baseCost, baseCost, 0, 0, false⟩
  | none => ⟨baseCost, baseCost, 0, 0, false⟩

/-- Discount application for one time-matching window: the percentage
branch (`discount_percentage && discount_percentage > 0`), else the fixed
rate branch. -/
def windowCost (baseCost validDuration : ℚ) (hh : HappyHour) : CostDetails :=
  match hh.discount_percentage with
  | some pct =>
    if 0 < pct then
      let discountAmount := baseCost * (pct / 100)
      ⟨baseCost, baseCost - discountAmount, pct, discountAmount, true⟩
    else windowFixed baseCost validDuration hh
  | none => windowFixed baseCost validDuration hh

/-- Lexicographic order on character lists by code point — the comparison
JS performs on strings (code-unit order; identical on the ASCII `HH:MM`
clock strings compared here). -/
def charListLe : List Char → List Char → Bool
  | [], _ => true
  | _ :: _, [] => false
  | c :: cs, d :: ds =>
    if c.toNat < d.toNat then true
    else if d.toNat < c.toNat then false
    else charListLe cs ds

/-- JS `a <= b` on strings. -/
def jsStrLe (a b : String) : Bool := charListLe a.data b.data

/-- The first window whose range contains the clock time
(`currentTime >= startTime && currentTime <= endTime`, lexical string
comparison); the loop `break`s on the first match even if that window
applies no discount. -/
def firstMatchingWindow (time : String) (hhs : List HappyHour) : Option HappyHour :=
  hhs.find? fun hh => jsStrLe hh.start_time time && jsStrLe time hh.end_time

/-- The resolver `fetchDeviceGroupAndCalculateCost(deviceId, durationHours)`
of SessionManager: resolve device → group → hourly price, correct a
non-positive duration to 1, compute the base cost and apply at most the
first matching happy-hour window.  A failure of the happy-hours query
alone keeps the undiscounted base result; a failure earlier returns the
zero result. -/
def fetchDeviceGroupAndCalculateCost (store : PricingStore) (weekday time : String)
    (deviceId : Option String) (durationHours : ℚ) : CostDetails :=
  match deviceId with
  | none => zeroCost
  | some did =>
    match store.getDevice did with
    | .error _ => zeroCost
    | .ok device =>
      match device.group with
      | none => zeroCost
      | some gid =>
        match store.getGroup gid with
        | .error _ => zeroCost
        | .ok group =>
          match group.price with
          | none => zeroCost
          | some hourlyRate =>
            let validDuration := if durationHours ≤ 0 then 1 else durationHours
            let baseCost := hourlyRate * validDuration
            let noDiscount : CostDetails := ⟨baseCost, baseCost, 0, 0, false⟩
            match store.getHappyHours gid weekday with
            | .error _ => noDiscount
            | .ok hhs =>
              match firstMatchingWindow time hhs with
              | none => noDiscount
              | some hh => windowCost baseCost validDuration hh

/-! ### Effects -/

/-- Partial update object for a `sessions` record: only the fields present
in the JS update object are `some`. -/
structure SessionUpdate where
  status : Option String := none
  amount_paid : Option ℚ := none
  discount_amount : Option ℚ := none
  discount_rate : Option ℚ := none
  session_total : Option ℚ := none
  total_amount : Option ℚ := none
  out_time : Option Int := none
  duration : Option ℚ := none
deriving Repr, DecidableEq

/-- A `session_logs` create payload. -/
structure LogEntry where
  session_id : String
  type : String
  session_amount : ℚ
deriving Repr, DecidableEq

/-- The device-release update payload. -/
structure DeviceUpdate where
  status : String
  token : String
  client_record : String
deriving Repr, DecidableEq

/-- One immediate effect performed by the client code. -/
inductive BaseAction where
  | updateSession (id : String) (u : SessionUpdate)
  | createSessionLog (e : LogEntry)
  | updateDevice (id : String) (u : DeviceUpdate)
  | showNotification (message : String) (system : Bool)
  | clearAuthStore
  | removeLocalStorage (key : String)
  | dispatchKioskEvent (reason : String) (force : Bool)
  | setFullScreen
  | reloadPageAfter (delayMs : Nat)
  | sessionStateChange (isActive : Bool)
  | autoLogin (userId username deviceId : String)
  | enableKioskMode
  | disableKioskMode
deriving Repr, DecidableEq

/-- An effect: either immediate, or the body of a `setTimeout` with its
delay in milliseconds (a nested timeout inside the body is flattened to a
`reloadPageAfter`). -/
inductive Action where
  | now (a : BaseAction)
  | delayed (delayMs : Nat) (inner : List BaseAction)
deriving Repr, DecidableEq

/-- All base effects of an action, the delayed ones included. -/
def Action.bases : Action → List BaseAction
  | .now a => [a]
  | .delayed _ inner => inner

/-- All base effects of an action list, delayed ones included. -/
def allBases (acts : List Action) : List BaseAction :=
  (acts.map Action.bases).flatten

/-- Every `sessions` write (id, payload) issued by an action list. -/
def sessionWrites (acts : List Action) : List (String × SessionUpdate) :=
  (allBases acts).filterMap fun
    | .updateSession id u => some (id, u)
    | _ => none

/-- Every `session_logs` append issued by an action list. -/
def logWrites (acts : List Action) : List LogEntry :=
  (allBases acts).filterMap fun
    | .createSessionLog e => some e
    | _ => none

/-- Every `devices` write issued by an action list. -/
def deviceWrites (acts : List Action) : List (String × DeviceUpdate) :=
  (allBases acts).filterMap fun
    | .updateDevice id u => some (id, u)
    | _ => none

/-! ### Calendar and session-manager state -/

/-- Derivation of local calendar components from an epoch-millisecond
timestamp (JS `getDate`/`getMonth`/`getFullYear`), kept abstract: the
claims never depend on a particular time zone. -/
structure Calendar where
  dayOf : Int → Nat
  monthOf : Int → Nat
  yearOf : Int → Nat

/-- The source's carried-over test: `now.getDate() > endDate.getDate() ||
now.getMonth() > endDate.getMonth() || now.getFullYear() >
endDate.getFullYear()`. -/
def isYesterday (cal : Calendar) (nowMs endMs : Int) : Bool :=
  decide (cal.dayOf endMs < cal.dayOf nowMs) ||
  decide (cal.monthOf endMs < cal.monthOf nowMs) ||
  decide (cal.yearOf endMs < cal.yearOf nowMs)

/-- Timestamps `a` and `b` fall on the same calendar day. -/
def sameCalendarDay (cal : Calendar) (a b : Int) : Prop :=
  cal.dayOf a = cal.dayOf b ∧ cal.monthOf a = cal.monthOf b ∧ cal.yearOf a = cal.yearOf b

/-- Timestamp `a` falls on a strictly earlier calendar day than `b`. -/
def earlierCalendarDay (cal : Calendar) (a b : Int) : Prop :=
  cal.yearOf a < cal.yearOf b ∨
    (cal.yearOf a = cal.yearOf b ∧
      (cal.monthOf a < cal.monthOf b ∨
        (cal.monthOf a = cal.monthOf b ∧ cal.dayOf a < cal.dayOf b)))

/-- The SessionManager component state read by the tick and by
`extendSession`.  Timestamps are epoch ms; a JS `new Date(null)` is epoch
0, hence the `getD 0` reads below. -/
structure SMState where
  sessionId : Option String
  inTime : Option Int
  outTime : Option Int
  isSessionActive : Bool
  notificationShown : Bool
  deviceInfo : Option Device
  sessionCost : ℚ
deriving Repr, DecidableEq

/-- The device-id fallbacks read from localStorage (`user_login_info`,
then `device_info`). -/
structure LocalStore where
  userLoginDeviceId : Option String
  deviceInfoDeviceId : Option String
deriving Repr, DecidableEq

/-- The body of the 5-second auto-logout timeout (duplicated verbatim in
the source at both expiry sites): clear persisted login flags and the auth
store, notify, re-engage kiosk mode directly and by broadcast, and reload
as a final fallback after one more second. -/
def autoLogoutActions : List BaseAction :=
  [ .removeLocalStorage "user_login_info",
    .removeLocalStorage "client_app_login",
    .clearAuthStore,
    .showNotification "You have been logged out due to session expiration." true,
    .setFullScreen,
    .dispatchKioskEvent "session-ended" true,
    .reloadPageAfter 1000 ]

/-- The "session ended" message of the first notification block. -/
def endedMessage (yesterday : Bool) : String :=
  if yesterday then "Your session has ended. The system will log you out in 5 seconds."
  else "Your session time has ended. The system will log you out in 5 seconds."

/-- The close payload written on a carried-over expiry. -/
def closeUpdate (cost discountAmount discountRate : ℚ) : SessionUpdate :=
  { status := some "Closed", amount_paid := some cost,
    discount_amount := some discountAmount, discount_rate := some discountRate,
    session_total := some cost, total_amount := some cost }

/-- The tick `updateRemainingTime` of SessionManager, the 1-second reconciliation
tick.  All reads of `notificationShown` within one invocation see the
value captured at render time (React closure semantics), so both
notification blocks can fire in the same expired tick.  Returns the next
component state (the scheduled `useState` updates applied) and the emitted
effects, in program order. -/
def updateRemainingTime (store : PricingStore) (cal : Calendar) (ls : LocalStore)
    (weekday time : String) (nowMs : Int) (s : SMState) : SMState × List Action :=
  match s.outTime with
  | none => (s, [])
  | some endMs =>
    let diff := endMs - nowMs
    if diff ≤ 0 then
      match s.sessionId with
      | none => (s, [])
      | some sid =>
        let yesterday := isYesterday cal nowMs endMs
        -- first block: one-shot "session ended" notification + 5 s auto-logout
        let firstActs : List Action :=
          if s.isSessionActive ∧ ¬ s.notificationShown then
            [.now (.showNotification (endedMessage yesterday) true),
             .delayed 5000 autoLogoutActions]
          else []
        -- close block: only when the expiry has rolled into a previous calendar day
        if s.isSessionActive ∧ yesterday = true then
          let deviceId : Option String :=
            match s.deviceInfo with
            | some d => some d.id
            | none => (ls.userLoginDeviceId).orElse fun _ => ls.deviceInfoDeviceId
          let costs : ℚ × ℚ × ℚ :=
            match s.deviceInfo with
            | some d =>
              let durationHours : ℚ := ((endMs - s.inTime.getD 0 : ℤ) : ℚ) / 3600000
              let cd := fetchDeviceGroupAndCalculateCost store weekday time (some d.id) durationHours
              (cd.finalCost, cd.discountAmount, cd.discountRate)
            | none => (s.sessionCost, 0, 0)
          let cost := costs.1
          let closeActs : List Action :=
            [.now (.updateSession sid (closeUpdate cost costs.2.1 costs.2.2)),
             .now (.createSessionLog ⟨sid, "Closed", cost⟩)] ++
            (match deviceId with
             | some did => [Action.now (.updateDevice did ⟨"Available", "", ""⟩)]
             | none => []) ++
            -- second block: the source re-reads the stale `notificationShown`
            (if ¬ s.notificationShown then
               [.now (.showNotification (endedMessage true) true),
                .delayed 5000 autoLogoutActions]
             else [])
          ({ s with isSessionActive := false, notificationShown := true },
           firstActs ++ closeActs)
        else
          ({ s with notificationShown := s.notificationShown || s.isSessionActive },
           firstActs)
    else
      -- time remains: threshold notification bookkeeping only
      let hours := diff / 3600000
      let minutes := (diff - hours * 3600000) / 60000
      let totalMinutesLeft := hours * 60 + minutes
      if s.isSessionActive ∧ s.sessionId.isSome then
        if totalMinutesLeft ≤ 5 ∧ 0 < totalMinutesLeft ∧ ¬ s.notificationShown then
          ({ s with notificationShown := true },
           [.now (.showNotification
             ("Your session will end in " ++ toString totalMinutesLeft ++
              " minutes. Please save your work.") true)])
        else if 5 < totalMinutesLeft ∧ s.notificationShown then
          ({ s with notificationShown := false }, [])
        else (s, [])
      else (s, [])

/-! ### SessionStateManager 30-second poll (`checkForActiveSessions`) -/

/-- A `sessions` record as read back from the store. -/
structure SessionRec where
  id : String
  device : Option String
  status : String
  in_time : Option Int
  out_time : Option Int
  duration : Option ℚ
  session_total : ℚ
deriving Repr, DecidableEq

/-- The poll `checkForActiveSessions` of SessionStateManager: `query` is the result
of the store list call (filtered to the device's open statuses, newest
first).  Returns the JS boolean result (`none` for the no-device-id early
return) and the emitted effects. -/
def checkForActiveSessions (deviceId : Option String)
    (query : Except Unit (List SessionRec)) (isClientApp : Bool) (nowMs : Int) :
    Option Bool × List Action :=
  match deviceId with
  | none => (none, [])
  | some _ =>
    match query with
    | .error _ => (some false, [.now (.sessionStateChange false)])
    | .ok sessions =>
      match sessions.head? with
      | none => (some false, [.now (.sessionStateChange false)])
      | some sess =>
        match sess.out_time with
        | none => (some true, [.now (.sessionStateChange true)])
        | some outMs =>
          if nowMs < outMs then
            ((if sess.status ≠ "Active" then
                [Action.now (.updateSession sess.id { status := some "Active" })]
              else []) ++ [.now (.sessionStateChange true)]
             |> fun acts => (some true, acts))
          else
            ((if isClientApp ∧ sess.status ≠ "Closed" then
                [Action.now (.updateSession sess.id { status := some "Closed" }),
                 .now .clearAuthStore,
                 .now (.removeLocalStorage "user_login_info"),
                 .now (.removeLocalStorage "client_app_login"),
                 .now (.dispatchKioskEvent "client-session-expired" true),
                 .now (.reloadPageAfter 1000)]
              else []) ++ [.now (.sessionStateChange false)]
             |> fun acts => (some false, acts))

/-! ### SessionManager discovery, extension and kiosk reaction -/

/-- Discovery `checkExistingSession` of SessionManager: given the device id found in
localStorage and the (already error-caught) result of the session list
call, return the found record and the write/notification effects.  The
subsequent cost computation performs store reads only (it is the
already-embedded `fetchDeviceGroupAndCalculateCost`) and is not an
effect. -/
def checkExistingSession (ls : LocalStore) (sessions : List SessionRec)
    (nowMs : Int) : Option SessionRec × List Action :=
  match (ls.userLoginDeviceId).orElse (fun _ => ls.deviceInfoDeviceId) with
  | none => (none, [])
  | some _ =>
    match sessions.head? with
    | none => (none, [])
    | some sess =>
      if sess.status = "Active" ∨ sess.status = "Booked" ∨ sess.status = "Occupied" ∨
          sess.status = "Extended" then
        let promoteActs : List Action :=
          if sess.status = "Booked" ∨ sess.status = "Occupied" then
            [.now (.updateSession sess.id { status := some "Active" })]
          else []
        let notifyActs : List Action :=
          match sess.out_time with
          | some outMs =>
            if outMs < nowMs then [.now (.showNotification "Your session has ended." false)]
            else []
          | none => []
        (some sess, promoteActs ++ notifyActs)
      else if sess.status = "Closed" then
        (some sess, [.now (.showNotification "Your session has ended." false)])
      else
        (some sess, [])

/-- Extension `extendSession` of SessionManager: add one hour to the scheduled
`out_time`, recompute duration and cost over the whole span from the
original `in_time`, write one `Extended` session update and append one
`Extended` log entry with a zero amount. -/
def extendSession (store : PricingStore) (weekday time : String)
    (s : SMState) : SMState × List Action :=
  match s.sessionId with
  | none => (s, [])
  | some sid =>
    let newOutMs := s.outTime.getD 0 + 3600000
    let newDurationHours : ℚ := ((newOutMs - s.inTime.getD 0 : ℤ) : ℚ) / 3600000
    let newDurationMinutes := newDurationHours * 60
    let costs : ℚ × ℚ × ℚ :=
      match s.deviceInfo with
      | some d =>
        let cd := fetchDeviceGroupAndCalculateCost store weekday time (some d.id) newDurationHours
        (cd.finalCost, cd.discountAmount, cd.discountRate)
      | none => (s.sessionCost, 0, 0)
    ({ s with outTime := some newOutMs, isSessionActive := true },
     [.now (.updateSession sid
        { out_time := some newOutMs, status := some "Extended",
          duration := some newDurationMinutes,
          session_total := some costs.1, total_amount := some costs.1,
          discount_amount := some costs.2.1, discount_rate := some costs.2.2 }),
      .now (.createSessionLog ⟨sid, "Extended", 0⟩)])

/-- The handler `handleSessionStateChange` of App, the kiosk lock controller's
reaction to the session-state callback. -/
def handleSessionStateChange (isActive isLoggedIn : Bool) : List Action :=
  if isActive ∧ isLoggedIn then [.now .disableKioskMode]
  else if ¬ isActive then [.now .enableKioskMode]
  else []

/-! ### Device token auto-login watcher (DeviceTokenMonitor) -/

/-- A decoded JWT payload; a field the JSON lacks is `none`, and an empty
string is falsy in the JS id checks. -/
structure TokenPayload where
  id : Option String
  sub : Option String
  user_id : Option String
  userId : Option String
  exp : Option Int
deriving Repr, DecidableEq

/-- An identity record (`clients` or `users` collection). -/
structure UserRec where
  id : String
  username : String
  email : String
deriving Repr, DecidableEq

/-- A full `devices` record as read by the watcher; `""` plays the role of
a missing token / client record (falsy). -/
structure DeviceRec where
  id : String
  token : String
  client_record : String
deriving Repr, DecidableEq

/-- External decoding and lookup collaborators of the watcher: base64+JSON
payload decoding of a token's middle segment, the PocketBase auth store's
validity verdict after a save, and the two identity collections. -/
structure TokenEnv where
  decodePayload : String → Except Unit TokenPayload
  isValidAfterSave : String → Bool
  getClient : String → Except Unit UserRec
  getUser : String → Except Unit UserRec

/-- The count `token.split('.').length` — for the one-character separator this is
the number of dots plus one. -/
def jwtPartsCount (t : String) : Nat :=
  (t.data.filter fun c => c = '.').length + 1

/-- The id-claim chain `tokenData.id || tokenData.sub || tokenData.user_id
|| tokenData.userId` followed by the `if (!userId)` falsiness guard: the
first non-empty candidate, if any. -/
def firstTruthy : List (Option String) → Option String
  | [] => none
  | some s :: rest => if s = "" then firstTruthy rest else some s
  | none :: rest => firstTruthy rest

/-- The user id discovered in a decoded payload. -/
def payloadUserId (p : TokenPayload) : Option String :=
  firstTruthy [p.id, p.sub, p.user_id, p.userId]

/-- The helper `pbclient.validateToken` (the local token shape/expiry check added to
the client in the PocketBase wrapper): non-empty, three dot-separated
segments, decodable payload, and an `exp` claim that has not passed. -/
def validateToken (env : TokenEnv) (nowSec : Int) (token : String) : Bool :=
  if token = "" then false
  else if jwtPartsCount token ≠ 3 then false
  else
    match env.decodePayload token with
    | .error _ => false
    | .ok payload =>
      -- `if (payload.exp && payload.exp < now) return false` — a zero
      -- `exp` is falsy and skips the check
      match payload.exp with
      | some exp => if exp = 0 then true else decide (nowSec ≤ exp)
      | none => true

/-- The display username fallback chain: `username`, else the part of
`email` before the `@`, else `"User"`. -/
def displayUsername (u : UserRec) : String :=
  if u.username = "" then
    if u.email = "" then "User"
    else String.mk (u.email.data.takeWhile fun c => c ≠ '@')
  else u.username

/-- Outcome of one watcher check: the JS boolean result, the auth store
content afterwards (the saved token, `none` when empty/cleared), the new
`lastCheckedToken` state, and the emitted effects (the upward success
callback is the `autoLogin` action). -/
structure MonitorResult where
  success : Bool
  auth : Option String
  lastChecked : String
  actions : List Action
deriving Repr, DecidableEq

/-- The watcher check `checkDeviceTokenAndLogin` of DeviceTokenMonitor.  `auth0` is the auth
store content before the check. -/
def checkDeviceTokenAndLogin (env : TokenEnv) (nowSec : Int)
    (deviceId : Option String) (getDevice : Except Unit DeviceRec)
    (lastCheckedToken : String) (auth0 : Option String) : MonitorResult :=
  match deviceId with
  | none => ⟨false, auth0, lastCheckedToken, []⟩
  | some did =>
    match getDevice with
    | .error _ => ⟨false, auth0, lastCheckedToken, []⟩
    | .ok device =>
      if device.token ≠ "" ∧ device.token ≠ lastCheckedToken then
        let lastChecked := device.token
        if ¬ validateToken env nowSec device.token then
          ⟨false, auth0, lastChecked, []⟩
        else
          -- pbclient.authStore.save(device.token, clientRecord)
          let auth1 : Option String := some device.token
          if env.isValidAfterSave device.token then
            if jwtPartsCount device.token ≠ 3 then ⟨false, auth1, lastChecked, []⟩
            else
              match env.decodePayload device.token with
              | .error _ => ⟨false, auth1, lastChecked, []⟩
              | .ok payload =>
                match payloadUserId payload with
                | none => ⟨false, auth1, lastChecked, []⟩
                | some uid =>
                  match env.getClient uid with
                  | .ok authUser =>
                    ⟨true, auth1, lastChecked,
                     [.now (.autoLogin authUser.id (displayUsername authUser) did)]⟩
                  | .error _ =>
                    match env.getUser uid with
                    | .ok authUser =>
                      ⟨true, auth1, lastChecked,
                       [.now (.autoLogin authUser.id (displayUsername authUser) did)]⟩
                    | .error _ => ⟨false, auth1, lastChecked, []⟩
          else
            -- fallback: manual decode of the raw device token
            if jwtPartsCount device.token ≠ 3 then ⟨false, auth1, lastChecked, []⟩
            else
              match env.decodePayload device.token with
              | .error _ => ⟨false, auth1, lastChecked, []⟩
              | .ok payload =>
                match payloadUserId payload with
                | none => ⟨false, auth1, lastChecked, []⟩
                | some uid =>
                  match env.getClient uid with
                  | .ok authUser =>
                    ⟨true, some device.token, lastChecked,
                     [.now (.autoLogin authUser.id (displayUsername authUser) did)]⟩
                  | .error _ => ⟨false, auth1, lastChecked, []⟩
      else if device.token = "" ∧ lastCheckedToken ≠ "" then
        ⟨false, auth0, "", []⟩
      else
        ⟨false, auth0, lastCheckedToken, []⟩

/-! ### Helper lemmas -/

theorem isYesterday_of_earlierCalendarDay (cal : Calendar) {a b : Int}
    (h : earlierCalendarDay cal a b) : isYesterday cal b a = true := by
  rcases h with h | ⟨he, h | ⟨hm, hd⟩⟩ <;> simp [isYesterday] <;> tauto

theorem isYesterday_of_sameCalendarDay (cal : Calendar) {a b : Int}
    (h : sameCalendarDay cal a b) : isYesterday cal b a = false := by
  obtain ⟨hd, hm, hy⟩ := h
  simp [isYesterday, hd, hm, hy]

theorem windowFixed_finalCost_nonneg (baseCost vd : ℚ) (hh : HappyHour)
    (hbase : 0 ≤ baseCost) (hvd : 0 ≤ vd) :
    0 ≤ (windowFixed baseCost vd hh).finalCost := by
  unfold windowFixed
  cases hfe : hh.fixed_rate with
  | some f =>
    by_cases hf : 0 < f
    · simp only [if_pos hf]
      exact mul_nonneg hf.le hvd
    · simp only [if_neg hf]
      exact hbase
  | none => exact hbase

theorem windowCost_finalCost_nonneg (baseCost vd : ℚ) (hh : HappyHour)
    (hbase : 0 ≤ baseCost) (hvd : 0 ≤ vd)
    (hple : ∀ p, hh.discount_percentage = some p → p ≤ 100) :
    0 ≤ (windowCost baseCost vd hh).finalCost := by
  unfold windowCost
  cases hpe : hh.discount_percentage with
  | some p =>
    by_cases hp : 0 < p
    · simp only [if_pos hp]
      have h100 := hple p hpe
      nlinarith [mul_nonneg hbase (by linarith : (0:ℚ) ≤ 100 - p)]
    · simp only [if_neg hp]
      exact windowFixed_finalCost_nonneg baseCost vd hh hbase hvd
  | none => exact windowFixed_finalCost_nonneg baseCost vd hh hbase hvd

/-! ### Claim C3: percentage discount -/

/-- C3: when the first active window matching the current weekday and
clock time specifies a positive `discount_percentage` p, the resolver
returns `baseCost = r * d`, `discountAmount = baseCost * p / 100` and
`finalCost = baseCost - discountAmount` (with `discountRate = p` and the
discount marked applied). -/
theorem percentage_discount_formula
    (store : PricingStore) (weekday time did gid : String)
    (device : Device) (group : Group) (r d p : ℚ)
    (hhs : List HappyHour) (hh : HappyHour)
    (hdev : store.getDevice did = .ok device) (hgrp : device.group = some gid)
    (hg : store.getGroup gid = .ok group) (hprice : group.price = some r)
    (hhh : store.getHappyHours gid weekday = .ok hhs)
    (hfind : firstMatchingWindow time hhs = some hh)
    (hpct : hh.discount_percentage = some p) (hp : 0 < p) (hd : 0 < d) :
    fetchDeviceGroupAndCalculateCost store weekday time (some did) d =
      ⟨r * d, r * d - r * d * (p / 100), p, r * d * (p / 100), true⟩ := by
  have hd' : ¬ d ≤ 0 := not_le.mpr hd
  simp [fetchDeviceGroupAndCalculateCost, hdev, hgrp, hg, hprice, hhh, hfind,
    windowCost, hpct, hp, hd']

/-- A store with hourly rate 100 and one all-day 20% Monday window. -/
def pctStore : PricingStore where
  getDevice := fun _ => .ok ⟨"dev1", some "g1"⟩
  getGroup := fun _ => .ok ⟨"g1", some 100⟩
  getHappyHours := fun _ _ => .ok [⟨"09:00", "23:00", some 20, none⟩]

/-- C3 witness: rate 100/hr, duration 2 h, 20% window ⇒ base 200,
discount 40, final 160. -/
theorem percentage_discount_formula_witness :
    fetchDeviceGroupAndCalculateCost pctStore "Monday" "10:00" (some "dev1") 2 =
      ⟨200, 160, 20, 40, true⟩ := by
  rw [percentage_discount_formula pctStore "Monday" "10:00" "dev1" "g1"
    ⟨"dev1", some "g1"⟩ ⟨"g1", some 100⟩ 100 2 20
    [⟨"09:00", "23:00", some 20, none⟩] ⟨"09:00", "23:00", some 20, none⟩
    rfl rfl rfl rfl rfl (by decide) rfl (by norm_num) (by norm_num)]
  norm_num

/-! ### Claim C4: fixed-rate discount -/

/-- C4: when the first active window matching the current weekday and
clock time specifies a positive `fixed_rate` f and no percentage, the
resolver returns `finalCost = f * d`, `discountAmount = baseCost -
finalCost` and `discountRateApplied = discountAmount / baseCost * 100`
guarded to 0 when `baseCost = 0`. -/
theorem fixed_rate_discount_formula
    (store : PricingStore) (weekday time did gid : String)
    (device : Device) (group : Group) (r d f : ℚ)
    (hhs : List HappyHour) (hh : HappyHour)
    (hdev : store.getDevice did = .ok device) (hgrp : device.group = some gid)
    (hg : store.getGroup gid = .ok group) (hprice : group.price = some r)
    (hhh : store.getHappyHours gid weekday = .ok hhs)
    (hfind : firstMatchingWindow time hhs = some hh)
    (hpct : hh.discount_percentage = none) (hfix : hh.fixed_rate = some f)
    (hf : 0 < f) (hd : 0 < d) :
    fetchDeviceGroupAndCalculateCost store weekday time (some did) d =
      ⟨r * d, f * d, if 0 < r * d then (r * d - f * d) / (r * d) * 100 else 0,
       r * d - f * d, true⟩ := by
  have hd' : ¬ d ≤ 0 := not_le.mpr hd
  simp [fetchDeviceGroupAndCalculateCost, hdev, hgrp, hg, hprice, hhh, hfind,
    windowCost, windowFixed, hpct, hfix, hf, hd']

/-- A store with hourly rate 100 and one all-day fixed-rate-60 Monday
window. -/
def fixedStore : PricingStore where
  getDevice := fun _ => .ok ⟨"dev1", some "g1"⟩
  getGroup := fun _ => .ok ⟨"g1", some 100⟩
  getHappyHours := fun _ _ => .ok [⟨"09:00", "23:00", none, some 60⟩]

/-- C4 witness: rate 100/hr, duration 2 h, fixed rate 60/hr ⇒ final 120,
discount 80, rate 40%. -/
theorem fixed_rate_discount_formula_witness :
    fetchDeviceGroupAndCalculateCost fixedStore "Monday" "10:00" (some "dev1") 2 =
      ⟨200, 120, 40, 80, true⟩ := by
  rw [fixed_rate_discount_formula fixedStore "Monday" "10:00" "dev1" "g1"
    ⟨"dev1", some "g1"⟩ ⟨"g1", some 100⟩ 100 2 60
    [⟨"09:00", "23:00", none, some 60⟩] ⟨"09:00", "23:00", none, some 60⟩
    rfl rfl rfl rfl rfl (by decide) rfl rfl (by norm_num) (by norm_num)]
  norm_num

/-! ### Claim C5: resolver robustness -/

/-- A store whose Monday window carries a 150% discount. -/
def overStore : PricingStore where
  getDevice := fun _ => .ok ⟨"dev1", some "g1"⟩
  getGroup := fun _ => .ok ⟨"g1", some 100⟩
  getHappyHours := fun _ _ => .ok [⟨"09:00", "23:00", some 150, none⟩]

/-- C5 counterexample: a matching window with `discount_percentage = 150`
makes the resolver return `finalCost = 100 - 150 = -50 < 0`, so the
resolver does not return a nonnegative cost on every input. -/
theorem resolver_negative_cost_counterexample :
    (fetchDeviceGroupAndCalculateCost overStore "Monday" "10:00" (some "dev1") 1).finalCost
      < 0 := by
  have h1 : jsStrLe "09:00" "10:00" = true := by decide
  have h2 : jsStrLe "10:00" "23:00" = true := by decide
  simp [fetchDeviceGroupAndCalculateCost, overStore, firstMatchingWindow, windowCost,
    h1, h2]
  norm_num

/-- C5 (amended): provided the resolved hourly price is nonnegative and
every stored window's `discount_percentage` is at most 100, the resolver
never returns a negative `finalCost`; and on a device lookup error, a
device without a group, a group lookup error, or a group without a price
it returns the all-zero result. -/
theorem resolver_nonneg_and_zero_on_failure :
    (∀ (store : PricingStore) (weekday time : String) (deviceId : Option String) (d : ℚ),
      (∀ did dev, store.getDevice did = .ok dev →
        ∀ gid, dev.group = some gid →
          ∀ g, store.getGroup gid = .ok g →
            ∀ r, g.price = some r → 0 ≤ r) →
      (∀ gid day hhs, store.getHappyHours gid day = .ok hhs →
        ∀ hh ∈ hhs, ∀ p, hh.discount_percentage = some p → p ≤ 100) →
      0 ≤ (fetchDeviceGroupAndCalculateCost store weekday time deviceId d).finalCost) ∧
    (∀ (store : PricingStore) (weekday time did : String) (d : ℚ),
      store.getDevice did = .error () →
      fetchDeviceGroupAndCalculateCost store weekday time (some did) d = zeroCost) ∧
    (∀ (store : PricingStore) (weekday time did : String) (dev : Device) (d : ℚ),
      store.getDevice did = .ok dev → dev.group = none →
      fetchDeviceGroupAndCalculateCost store weekday time (some did) d = zeroCost) ∧
    (∀ (store : PricingStore) (weekday time did gid : String) (dev : Device) (d : ℚ),
      store.getDevice did = .ok dev → dev.group = some gid →
      store.getGroup gid = .error () →
      fetchDeviceGroupAndCalculateCost store weekday time (some did) d = zeroCost) ∧
    (∀ (store : PricingStore) (weekday time did gid : String)
      (dev : Device) (g : Group) (d : ℚ),
      store.getDevice did = .ok dev → dev.group = some gid →
      store.getGroup gid = .ok g → g.price = none →
      fetchDeviceGroupAndCalculateCost store weekday time (some did) d = zeroCost) := by
  refine ⟨?_, ?_, ?_, ?_, ?_⟩
  · intro store weekday time deviceId d hprice hpct
    cases deviceId with
    | none => simp [fetchDeviceGroupAndCalculateCost, zeroCost]
    | some did =>
      cases hdev : store.getDevice did with
      | error e => simp [fetchDeviceGroupAndCalculateCost, hdev, zeroCost]
      | ok dev =>
        cases hgrp : dev.group with
        | none => simp [fetchDeviceGroupAndCalculateCost, hdev, hgrp, zeroCost]
        | some gid =>
          cases hgp : store.getGroup gid with
          | error e => simp [fetchDeviceGroupAndCalculateCost, hdev, hgrp, hgp, zeroCost]
          | ok g =>
            cases hpr : g.price with
            | none => simp [fetchDeviceGroupAndCalculateCost, hdev, hgrp, hgp, hpr, zeroCost]
            | some r =>
              have hr : 0 ≤ r := hprice did dev hdev gid hgrp g hgp r hpr
              have hvd : 0 < (if d ≤ 0 then 1 else d : ℚ) := by
                by_cases h : d ≤ 0
                · simp [h]
                · simp [h]
                  linarith [not_le.mp h]
              have hbase : 0 ≤ r * (if d ≤ 0 then 1 else d : ℚ) := mul_nonneg hr hvd.le
              cases hhh : store.getHappyHours gid weekday with
              | error e =>
                simp only [fetchDeviceGroupAndCalculateCost, hdev, hgrp, hgp, hpr, hhh]
                exact hbase
              | ok hhs =>
                cases hfind : firstMatchingWindow time hhs with
                | none =>
                  simp only [fetchDeviceGroupAndCalculateCost, hdev, hgrp, hgp, hpr,
                    hhh, hfind]
                  exact hbase
                | some hh =>
                  have hmem : hh ∈ hhs := List.mem_of_find?_eq_some hfind
                  simp only [fetchDeviceGroupAndCalculateCost, hdev, hgrp, hgp, hpr,
                    hhh, hfind]
                  exact windowCost_finalCost_nonneg _ _ _ hbase hvd.le
                    (fun p hp => hpct gid weekday hhs hhh hh hmem p hp)
  · intro store weekday time did d h
    simp [fetchDeviceGroupAndCalculateCost, h]
  · intro store weekday time did dev d h1 h2
    simp [fetchDeviceGroupAndCalculateCost, h1, h2]
  · intro store weekday time did gid dev d h1 h2 h3
    simp [fetchDeviceGroupAndCalculateCost, h1, h2, h3]
  · intro store weekday time did gid dev g d h1 h2 h3 h4
    simp [fetchDeviceGroupAndCalculateCost, h1, h2, h3, h4]

/-- C5 witness: on the 20% store the guarded nonnegativity applies and
gives a nonnegative final cost. -/
theorem resolver_nonneg_witness :
    0 ≤ (fetchDeviceGroupAndCalculateCost pctStore "Monday" "10:00" (some "dev1") 2).finalCost := by
  refine resolver_nonneg_and_zero_on_failure.1 pctStore "Monday" "10:00" (some "dev1") 2
    ?_ ?_
  · intro did dev hdev gid hgid g hg r hr
    simp only [pctStore, Except.ok.injEq] at hdev hg
    subst hdev
    subst hg
    simp only [Option.some.injEq] at hr
    subst hr
    norm_num
  · intro gid day hhs hhh hh hmem p hp
    simp only [pctStore, Except.ok.injEq] at hhh
    subst hhh
    simp only [List.mem_singleton] at hmem
    subst hmem
    simp only [Option.some.injEq] at hp
    subst hp
    norm_num

/-! ### Claim C1: carried-over expiry closes the session -/

/-- C1: on a tick where the session is open (active, with an id), its
`out_time` has passed and falls on an earlier calendar day than now, and
the device is known, the tick issues exactly one session write — status
`Closed` with the recomputed `amount_paid`, `discount_amount`,
`discount_rate`, `session_total` and `total_amount` —, appends exactly one
`Closed` session log entry, and issues exactly one device write releasing
it to `Available` with empty token and client record. -/
theorem carried_over_close
    (store : PricingStore) (cal : Calendar) (ls : LocalStore)
    (weekday time : String) (nowMs endMs inMs : Int) (sid : String) (dev : Device)
    (s : SMState)
    (hout : s.outTime = some endMs) (hin : s.inTime = some inMs)
    (hsid : s.sessionId = some sid) (hactive : s.isSessionActive = true)
    (hdev : s.deviceInfo = some dev)
    (hpast : endMs ≤ nowMs) (hearly : earlierCalendarDay cal endMs nowMs) :
    sessionWrites (updateRemainingTime store cal ls weekday time nowMs s).2 =
      [(sid, closeUpdate
        (fetchDeviceGroupAndCalculateCost store weekday time (some dev.id)
          (((endMs - inMs : ℤ) : ℚ) / 3600000)).finalCost
        (fetchDeviceGroupAndCalculateCost store weekday time (some dev.id)
          (((endMs - inMs : ℤ) : ℚ) / 3600000)).discountAmount
        (fetchDeviceGroupAndCalculateCost store weekday time (some dev.id)
          (((endMs - inMs : ℤ) : ℚ) / 3600000)).discountRate)] ∧
    logWrites (updateRemainingTime store cal ls weekday time nowMs s).2 =
      [⟨sid, "Closed",
        (fetchDeviceGroupAndCalculateCost store weekday time (some dev.id)
          (((endMs - inMs : ℤ) : ℚ) / 3600000)).finalCost⟩] ∧
    deviceWrites (updateRemainingTime store cal ls weekday time nowMs s).2 =
      [(dev.id, ⟨"Available", "", ""⟩)] := by
  have hyes : isYesterday cal nowMs endMs = true :=
    isYesterday_of_earlierCalendarDay cal hearly
  have hdiff : endMs - nowMs ≤ 0 := sub_nonpos.mpr hpast
  by_cases hn : s.notificationShown <;>
    simp [updateRemainingTime, hout, hsid, hactive, hdev, hin, hdiff, hyes, hn,
      sessionWrites, logWrites, deviceWrites, allBases, Action.bases, autoLogoutActions]

/-- An epoch-day calendar used for concrete instantiations. -/
def simpleCal : Calendar where
  dayOf := fun ms => (ms / 86400000).toNat
  monthOf := fun _ => 0
  yearOf := fun _ => 0

/-- A localStorage with no stored device ids. -/
def emptyLS : LocalStore := ⟨none, none⟩

/-- Session-manager state with a session that expired at epoch 0 after a
one-hour run. -/
def smCarried : SMState :=
  ⟨some "s1", some (-3600000), some 0, true, false, some ⟨"dev1", some "g1"⟩, 0⟩

/-- C1 witness: the close write, log append and device release on a
session one calendar day past its `out_time`. -/
theorem carried_over_close_witness :
    sessionWrites (updateRemainingTime pctStore simpleCal emptyLS "Monday" "10:00"
        86400000 smCarried).2 =
      [("s1", closeUpdate
        (fetchDeviceGroupAndCalculateCost pctStore "Monday" "10:00" (some "dev1")
          (((0 - (-3600000) : ℤ) : ℚ) / 3600000)).finalCost
        (fetchDeviceGroupAndCalculateCost pctStore "Monday" "10:00" (some "dev1")
          (((0 - (-3600000) : ℤ) : ℚ) / 3600000)).discountAmount
        (fetchDeviceGroupAndCalculateCost pctStore "Monday" "10:00" (some "dev1")
          (((0 - (-3600000) : ℤ) : ℚ) / 3600000)).discountRate)] ∧
    logWrites (updateRemainingTime pctStore simpleCal emptyLS "Monday" "10:00"
        86400000 smCarried).2 =
      [⟨"s1", "Closed",
        (fetchDeviceGroupAndCalculateCost pctStore "Monday" "10:00" (some "dev1")
          (((0 - (-3600000) : ℤ) : ℚ) / 3600000)).finalCost⟩] ∧
    deviceWrites (updateRemainingTime pctStore simpleCal emptyLS "Monday" "10:00"
        86400000 smCarried).2 =
      [("dev1", ⟨"Available", "", ""⟩)] :=
  carried_over_close pctStore simpleCal emptyLS "Monday" "10:00" 86400000 0 (-3600000)
    "s1" ⟨"dev1", some "g1"⟩ smCarried rfl rfl rfl rfl rfl (by norm_num)
    (by simp [earlierCalendarDay, simpleCal])

/-! ### Claim C2: same-day expiry does not close -/

/-- C2: on a tick where the session is open, its `out_time` has passed but
still falls on the current calendar day, and the one-shot flag is clear,
the tick issues no session write at all; it emits exactly one "session
ended" notification and one 5-second-delayed block that performs the local
logout (auth store cleared, login flags removed) and the kiosk-lock
request. -/
theorem same_day_expiry_no_close
    (store : PricingStore) (cal : Calendar) (ls : LocalStore)
    (weekday time : String) (nowMs endMs : Int) (sid : String) (s : SMState)
    (hout : s.outTime = some endMs) (hsid : s.sessionId = some sid)
    (hactive : s.isSessionActive = true) (hshown : s.notificationShown = false)
    (hpast : endMs ≤ nowMs) (hsame : sameCalendarDay cal endMs nowMs) :
    updateRemainingTime store cal ls weekday time nowMs s =
      ({ s with notificationShown := true },
       [.now (.showNotification (endedMessage false) true),
        .delayed 5000 autoLogoutActions]) ∧
    sessionWrites (updateRemainingTime store cal ls weekday time nowMs s).2 = [] ∧
    BaseAction.clearAuthStore ∈ autoLogoutActions ∧
    BaseAction.dispatchKioskEvent "session-ended" true ∈ autoLogoutActions := by
  have hno : isYesterday cal nowMs endMs = false :=
    isYesterday_of_sameCalendarDay cal hsame
  have hdiff : endMs - nowMs ≤ 0 := sub_nonpos.mpr hpast
  refine ⟨?_, ?_, ?_, ?_⟩
  · simp [updateRemainingTime, hout, hsid, hactive, hshown, hdiff, hno]
  · simp [updateRemainingTime, hout, hsid, hactive, hshown, hdiff, hno,
      sessionWrites, allBases, Action.bases, autoLogoutActions]
  · simp [autoLogoutActions]
  · simp [autoLogoutActions]

/-- Session-manager state with a session that expired one hour ago today. -/
def smSameDay : SMState :=
  ⟨some "s1", some 0, some 3600000, true, false, some ⟨"dev1", some "g1"⟩, 0⟩

/-- C2 witness: the same-day expired tick emits only the notification and
the delayed logout block, and no session write. -/
theorem same_day_expiry_witness :
    updateRemainingTime pctStore simpleCal emptyLS "Monday" "10:00" 7200000 smSameDay =
      ({ smSameDay with notificationShown := true },
       [.now (.showNotification (endedMessage false) true),
        .delayed 5000 autoLogoutActions]) ∧
    sessionWrites (updateRemainingTime pctStore simpleCal emptyLS "Monday" "10:00"
      7200000 smSameDay).2 = [] ∧
    BaseAction.clearAuthStore ∈ autoLogoutActions ∧
    BaseAction.dispatchKioskEvent "session-ended" true ∈ autoLogoutActions :=
  same_day_expiry_no_close pctStore simpleCal emptyLS "Monday" "10:00" 7200000 3600000
    "s1" smSameDay rfl rfl rfl rfl (by norm_num)
    (by simp [sameCalendarDay, simpleCal])

/-! ### Claim C6: extension semantics -/

/-- C6: one `extendSession` call writes the session with `out_time` one
hour past the scheduled `out_time` (not past now — the function never
reads a clock), `duration` recomputed as the whole span from the original
`in_time` to the new `out_time`, cost fields recomputed by the pricing
resolver over that whole new duration, status `Extended`, and appends one
`Extended` log entry with a zero amount. -/
theorem extend_session_spec
    (store : PricingStore) (weekday time : String) (s : SMState)
    (sid : String) (inMs outMs : Int) (dev : Device)
    (hsid : s.sessionId = some sid) (hin : s.inTime = some inMs)
    (hout : s.outTime = some outMs) (hdev : s.deviceInfo = some dev) :
    extendSession store weekday time s =
      ({ s with outTime := some (outMs + 3600000), isSessionActive := true },
       [.now (.updateSession sid
          { out_time := some (outMs + 3600000), status := some "Extended",
            duration := some ((((outMs + 3600000 - inMs : ℤ) : ℚ) / 3600000) * 60),
            session_total := some (fetchDeviceGroupAndCalculateCost store weekday time
              (some dev.id) (((outMs + 3600000 - inMs : ℤ) : ℚ) / 3600000)).finalCost,
            total_amount := some (fetchDeviceGroupAndCalculateCost store weekday time
              (some dev.id) (((outMs + 3600000 - inMs : ℤ) : ℚ) / 3600000)).finalCost,
            discount_amount := some (fetchDeviceGroupAndCalculateCost store weekday time
              (some dev.id) (((outMs + 3600000 - inMs : ℤ) : ℚ) / 3600000)).discountAmount,
            discount_rate := some (fetchDeviceGroupAndCalculateCost store weekday time
              (some dev.id) (((outMs + 3600000 - inMs : ℤ) : ℚ) / 3600000)).discountRate }),
        .now (.createSessionLog ⟨sid, "Extended", 0⟩)]) := by
  simp [extendSession, hsid, hin, hout, hdev]

/-- A session started at epoch 0 scheduled to end after one hour. -/
def smExtend : SMState :=
  ⟨some "s1", some 0, some 3600000, true, false, some ⟨"dev1", some "g1"⟩, 0⟩

/-- C6 witness: extending the one-hour session moves `out_time` to T+2h
and prices the full two-hour span. -/
theorem extend_session_witness :
    extendSession pctStore "Monday" "10:00" smExtend =
      ({ smExtend with outTime := some (3600000 + 3600000), isSessionActive := true },
       [.now (.updateSession "s1"
          { out_time := some (3600000 + 3600000), status := some "Extended",
            duration := some ((((3600000 + 3600000 - 0 : ℤ) : ℚ) / 3600000) * 60),
            session_total := some (fetchDeviceGroupAndCalculateCost pctStore "Monday"
              "10:00" (some "dev1") (((3600000 + 3600000 - 0 : ℤ) : ℚ) / 3600000)).finalCost,
            total_amount := some (fetchDeviceGroupAndCalculateCost pctStore "Monday"
              "10:00" (some "dev1") (((3600000 + 3600000 - 0 : ℤ) : ℚ) / 3600000)).finalCost,
            discount_amount := some (fetchDeviceGroupAndCalculateCost pctStore "Monday"
              "10:00" (some "dev1") (((3600000 + 3600000 - 0 : ℤ) : ℚ) / 3600000)).discountAmount,
            discount_rate := some (fetchDeviceGroupAndCalculateCost pctStore "Monday"
              "10:00" (some "dev1") (((3600000 + 3600000 - 0 : ℤ) : ℚ) / 3600000)).discountRate }),
        .now (.createSessionLog ⟨"s1", "Extended", 0⟩)]) :=
  extend_session_spec pctStore "Monday" "10:00" smExtend "s1" 0 3600000
    ⟨"dev1", some "g1"⟩ rfl rfl rfl rfl

/-! ### Claim C7: idempotent promotion to Active -/

/-- Application of a partial session update to a stored record (the fields
the client ever writes). -/
def applySessionUpdate (sess : SessionRec) (u : SessionUpdate) : SessionRec :=
  { sess with
    status := u.status.getD sess.status,
    out_time := match u.out_time with | some t => some t | none => sess.out_time,
    duration := match u.duration with | some d => some d | none => sess.duration,
    session_total := u.session_total.getD sess.session_total }

/-- A stored `Extended` session still inside its scheduled hour. -/
def extendedSess : SessionRec :=
  ⟨"s1", some "dev1", "Extended", some 0, some 3600000, some 60, 100⟩

/-- C7 counterexample: `checkForActiveSessions` issues a write to status
`Active` for a found valid session whose status is `Extended`, which is
neither `Booked` nor `Occupied`. -/
theorem promote_counterexample :
    sessionWrites (checkForActiveSessions (some "dev1") (.ok [extendedSess]) false 0).2 =
      [("s1", { status := some "Active" })] ∧
    ¬ (extendedSess.status = "Booked" ∨ extendedSess.status = "Occupied") := by
  constructor
  · simp [checkForActiveSessions, extendedSess, sessionWrites, allBases, Action.bases]
  · simp [extendedSess]

/-- C7 (amended): promotion to `Active` is idempotent — a found session
already `Active` and unexpired draws zero session writes from
`checkForActiveSessions` and from `checkExistingSession`, and after
`checkForActiveSessions` promotes a `Booked`/`Occupied` session a second
run issues zero further writes.  `checkExistingSession` writes `Active`
only when the found status is `Booked` or `Occupied`, but
`checkForActiveSessions` writes `Active` whenever the found valid
session's status differs from `Active`, `Extended` included. -/
theorem promote_amended :
    (∀ (dId : String) (sess : SessionRec) (rest : List SessionRec)
      (isClientApp : Bool) (nowMs outMs : Int),
      sess.status = "Active" → sess.out_time = some outMs → nowMs < outMs →
      sessionWrites (checkForActiveSessions (some dId) (.ok (sess :: rest))
        isClientApp nowMs).2 = []) ∧
    (∀ (ls : LocalStore) (sess : SessionRec) (rest : List SessionRec) (nowMs : Int),
      sess.status = "Active" →
      sessionWrites (checkExistingSession ls (sess :: rest) nowMs).2 = []) ∧
    (∀ (ls : LocalStore) (sess : SessionRec) (rest : List SessionRec) (nowMs : Int)
      (id : String) (u : SessionUpdate),
      (id, u) ∈ sessionWrites (checkExistingSession ls (sess :: rest) nowMs).2 →
      u.status = some "Active" ∧ (sess.status = "Booked" ∨ sess.status = "Occupied")) ∧
    (∀ (dId : String) (sess : SessionRec) (rest : List SessionRec)
      (isClientApp : Bool) (nowMs outMs : Int),
      sess.out_time = some outMs → nowMs < outMs → sess.status ≠ "Active" →
      sessionWrites (checkForActiveSessions (some dId) (.ok (sess :: rest))
        isClientApp nowMs).2 = [(sess.id, { status := some "Active" })]) ∧
    (∀ (dId : String) (sess : SessionRec) (rest : List SessionRec)
      (isClientApp : Bool) (nowMs outMs : Int),
      sess.out_time = some outMs → nowMs < outMs →
      (sess.status = "Booked" ∨ sess.status = "Occupied") →
      sessionWrites (checkForActiveSessions (some dId)
        (.ok (applySessionUpdate sess { status := some "Active" } :: rest))
        isClientApp nowMs).2 = []) := by
  refine ⟨?_, ?_, ?_, ?_, ?_⟩
  · intro dId sess rest isClientApp nowMs outMs hstat hout hlt
    simp [checkForActiveSessions, hout, hlt, hstat, sessionWrites, allBases, Action.bases]
  · intro ls sess rest nowMs hstat
    cases hdid : (ls.userLoginDeviceId).orElse (fun _ => ls.deviceInfoDeviceId) with
    | none => simp [checkExistingSession, hdid, sessionWrites, allBases]
    | some did =>
      simp [checkExistingSession, hdid, hstat, sessionWrites, allBases, Action.bases]
      cases hout : sess.out_time with
      | none => simp
      | some outMs =>
        by_cases h : outMs < nowMs <;> simp [h, sessionWrites, allBases, Action.bases]
  · intro ls sess rest nowMs id u hmem
    cases hdid : (ls.userLoginDeviceId).orElse (fun _ => ls.deviceInfoDeviceId) with
    | none => simp [checkExistingSession, hdid, sessionWrites, allBases] at hmem
    | some did =>
      by_cases hbo : sess.status = "Booked" ∨ sess.status = "Occupied"
      · refine ⟨?_, hbo⟩
        have hopen : sess.status = "Active" ∨ sess.status = "Booked" ∨
            sess.status = "Occupied" ∨ sess.status = "Extended" := by tauto
        simp [checkExistingSession, hdid, hopen, hbo, sessionWrites, allBases,
          Action.bases] at hmem
        cases hout : sess.out_time with
        | none =>
          simp [hout] at hmem
          simp [hmem]
        | some outMs =>
          by_cases h : outMs < nowMs <;> simp [hout, h] at hmem <;> simp [hmem]
      · exfalso
        by_cases hopen : sess.status = "Active" ∨ sess.status = "Booked" ∨
            sess.status = "Occupied" ∨ sess.status = "Extended"
        · simp [checkExistingSession, hdid, hopen, hbo, sessionWrites, allBases,
            Action.bases] at hmem
          cases hout : sess.out_time with
          | none => simp [hout] at hmem
          | some outMs => by_cases h : outMs < nowMs <;> simp [hout, h] at hmem
        · by_cases hcl : sess.status = "Closed"
          · simp [checkExistingSession, hdid, hopen, hcl, sessionWrites, allBases,
              Action.bases] at hmem
          · simp [checkExistingSession, hdid, hopen, hcl, sessionWrites, allBases,
              Action.bases] at hmem
  · intro dId sess rest isClientApp nowMs outMs hout hlt hstat
    simp [checkForActiveSessions, hout, hlt, hstat, sessionWrites, allBases, Action.bases]
  · intro dId sess rest isClientApp nowMs outMs hout hlt hbo
    simp [checkForActiveSessions, applySessionUpdate, hout, hlt, sessionWrites,
      allBases, Action.bases]

/-- A stored `Active` session still inside its scheduled hour. -/
def activeSess : SessionRec :=
  ⟨"s1", some "dev1", "Active", some 0, some 3600000, some 60, 100⟩

/-- C7 witness: an already-`Active` valid session draws zero session
writes from the poll. -/
theorem promote_amended_witness :
    sessionWrites (checkForActiveSessions (some "dev1") (.ok [activeSess]) false 0).2
      = [] :=
  promote_amended.1 "dev1" activeSess [] false 0 3600000 (by rfl) (by rfl) (by norm_num)

/-! ### Claim C9: kiosk lock reaction -/

/-- C9 counterexample: a session-state-change event with
`hasActiveOpenSession = true` while no user is logged in unlocks nothing —
the handler performs no kiosk action at all, so `true` does not always
cause an unlock. -/
theorem kiosk_counterexample :
    handleSessionStateChange true false = [] ∧
    Action.now .disableKioskMode ∉ handleSessionStateChange true false := by
  constructor
  · rfl
  · simp [handleSessionStateChange]

/-- C9 (amended): `hasActiveOpenSession = true` unlocks the terminal only
when a user is logged in; `false` always locks it; `true` while logged out
performs no kiosk action. -/
theorem kiosk_amended :
    handleSessionStateChange true true = [Action.now .disableKioskMode] ∧
    (∀ isLoggedIn, handleSessionStateChange false isLoggedIn =
      [Action.now .enableKioskMode]) ∧
    handleSessionStateChange true false = [] := by
  refine ⟨rfl, ?_, rfl⟩
  intro isLoggedIn
  cases isLoggedIn <;> rfl

/-! ### Claim C10: client-app same-day force close -/

/-- C10: with the client-app-login flag set, the 30-second poll closes an
expired open session regardless of calendar day: it writes only
`{status: Closed}` (no monetary fields, no log entry, no device release),
clears the auth store and both persisted login flags, broadcasts a forced
kiosk-lock request, and schedules the reload to the login screen. -/
theorem client_app_expired_close
    (did : String) (sess : SessionRec) (rest : List SessionRec)
    (nowMs outMs : Int)
    (hout : sess.out_time = some outMs) (hpast : outMs ≤ nowMs)
    (hstat : sess.status ≠ "Closed") :
    checkForActiveSessions (some did) (.ok (sess :: rest)) true nowMs =
      (some false,
       [.now (.updateSession sess.id { status := some "Closed" }),
        .now .clearAuthStore,
        .now (.removeLocalStorage "user_login_info"),
        .now (.removeLocalStorage "client_app_login"),
        .now (.dispatchKioskEvent "client-session-expired" true),
        .now (.reloadPageAfter 1000),
        .now (.sessionStateChange false)]) ∧
    logWrites (checkForActiveSessions (some did) (.ok (sess :: rest)) true nowMs).2
      = [] ∧
    deviceWrites (checkForActiveSessions (some did) (.ok (sess :: rest)) true nowMs).2
      = [] := by
  have hlt : ¬ nowMs < outMs := not_lt.mpr hpast
  refine ⟨?_, ?_, ?_⟩ <;>
    simp [checkForActiveSessions, hout, hlt, hstat, logWrites, deviceWrites,
      allBases, Action.bases]

/-- C10 witness: an `Extended` session one day past its `out_time` under a
client-app login gets the bare `Closed` write and the logout/lock/reload
effects, with no log entry and no device write. -/
theorem client_app_expired_close_witness :
    checkForActiveSessions (some "dev1") (.ok [extendedSess]) true 86400000 =
      (some false,
       [.now (.updateSession extendedSess.id { status := some "Closed" }),
        .now .clearAuthStore,
        .now (.removeLocalStorage "user_login_info"),
        .now (.removeLocalStorage "client_app_login"),
        .now (.dispatchKioskEvent "client-session-expired" true),
        .now (.reloadPageAfter 1000),
        .now (.sessionStateChange false)]) ∧
    logWrites (checkForActiveSessions (some "dev1") (.ok [extendedSess]) true 86400000).2
      = [] ∧
    deviceWrites (checkForActiveSessions (some "dev1") (.ok [extendedSess]) true 86400000).2
      = [] :=
  client_app_expired_close "dev1" extendedSess [] 86400000 3600000
    (by rfl) (by norm_num) (by decide)

/-! ### Claim C8: watcher fails without a user-id claim -/

/-- A decoding environment whose payloads carry no id claim and whose
lookups all fail. -/
def noIdEnv : TokenEnv where
  decodePayload := fun _ => .ok ⟨none, none, none, none, none⟩
  isValidAfterSave := fun _ => true
  getClient := fun _ => .error ()
  getUser := fun _ => .error ()

/-- A device carrying a three-segment token. -/
def noIdDevice : DeviceRec := ⟨"dev1", "h.p.s", ""⟩

/-- C8 counterexample: on a token whose decoded payload has no user-id
claim the watcher reports failure and invokes no callback, but the auth
store — empty before the check — is left holding the saved device token,
so the prior auth state is not untouched. -/
theorem watcher_counterexample :
    (checkDeviceTokenAndLogin noIdEnv 0 (some "dev1") (.ok noIdDevice) "" none).success
      = false ∧
    (checkDeviceTokenAndLogin noIdEnv 0 (some "dev1") (.ok noIdDevice) "" none).actions
      = [] ∧
    (checkDeviceTokenAndLogin noIdEnv 0 (some "dev1") (.ok noIdDevice) "" none).auth
      ≠ none := by decide

/-- C8 (amended): for every device token that passes local validation but
whose decoded payload contains none of the candidate user-id fields, the
watcher never invokes the upward success callback and reports failure —
but the auth store ends up holding the device token saved before the id
check (it is not restored to the prior state). -/
theorem watcher_no_id_amended
    (env : TokenEnv) (nowSec : Int) (did lastChecked : String) (auth0 : Option String)
    (device : DeviceRec) (payload : TokenPayload)
    (htok : device.token ≠ "") (hnew : device.token ≠ lastChecked)
    (hvalid : validateToken env nowSec device.token = true)
    (hdec : env.decodePayload device.token = .ok payload)
    (hnoid : payloadUserId payload = none) :
    (checkDeviceTokenAndLogin env nowSec (some did) (.ok device) lastChecked auth0).success
      = false ∧
    (checkDeviceTokenAndLogin env nowSec (some did) (.ok device) lastChecked auth0).actions
      = [] ∧
    (checkDeviceTokenAndLogin env nowSec (some did) (.ok device) lastChecked auth0).auth
      = some device.token := by
  have h3 : jwtPartsCount device.token = 3 := by
    by_contra h
    simp [validateToken, htok, h] at hvalid
  by_cases hv : env.isValidAfterSave device.token <;>
    simp [checkDeviceTokenAndLogin, htok, hnew, hvalid, h3, hdec, hnoid, hv]

/-- C8 witness: the no-id token leaves failure, no callback, and the saved
token in the auth store. -/
theorem watcher_no_id_witness :
    (checkDeviceTokenAndLogin noIdEnv 0 (some "dev1") (.ok noIdDevice) "" none).success
      = false ∧
    (checkDeviceTokenAndLogin noIdEnv 0 (some "dev1") (.ok noIdDevice) "" none).actions
      = [] ∧
    (checkDeviceTokenAndLogin noIdEnv 0 (some "dev1") (.ok noIdDevice) "" none).auth
      = some noIdDevice.token :=
  watcher_no_id_amended noIdEnv 0 "dev1" "" none noIdDevice ⟨none, none, none, none, none⟩
    (by decide) (by decide) (by decide) (by rfl) (by decide)

end Xtreme
